import Mathlib

/-!
Verification of the booking-conflict checker and ledger mutator of the
Lumina studio-management application.

The definitions below are a shallow embedding of the StudioContext
provider (src/unnamed/part_003): `checkConflictOnServer`, `addBooking`,
`addTransaction` (record expense), `settleBooking` and `transferFunds`,
together with the booking-submission path of
`src/components/NewBookingModal.tsx`.

Modelling conventions:
* JS numbers (balances, amounts, durations in hours, buffer minutes) are
  rationals (`ℚ`).
* The Firestore document store is a record of lists of documents; `setDoc`
  / `transaction.set` replaces the document with the same id or appends,
  `transaction.update` rewrites the named field of every document with the
  matching id.  `runTransaction` bodies are functions returning
  `Except String State`: a thrown value aborts the whole body, leaving the
  state unchanged (all-or-nothing).
* Each mutator's outer `try`/`catch` is modelled by `MutResult`: the
  resulting state, the value rethrown to the caller (if any) and the
  notification emitted.  Concurrency of Firestore transactions is modelled
  by serialisation: the atomic primitive guarantees that two transactions
  on the same documents apply one after the other.
* Fields of `Booking` / `Account` / `Transaction` that none of the embedded
  operations read or write (phone numbers, items, receipt URLs, …) and the
  wall-clock timestamps (`Date.now`, `toISOString`) are omitted; generated
  document ids are passed in explicitly as parameters.
-/

namespace Lumina

/-- A booking document (fields used by the embedded operations).
`timeStart` is an "HH:MM" string, `duration` is in hours, `status` is one
of the lifecycle strings (only "CANCELLED" matters here). -/
structure Booking where
  id : String
  clientName : String
  date : String
  timeStart : String
  duration : ℚ
  studio : String
  paidAmount : ℚ
  status : String
  photographerId : String
  ownerId : String
  deriving DecidableEq, Repr

/-- An account document. -/
structure Account where
  id : String
  name : String
  balance : ℚ
  ownerId : String
  deriving DecidableEq, Repr

/-- A transaction (ledger) document.  `type` is "INCOME", "EXPENSE" or
"TRANSFER". -/
structure Transaction where
  id : String
  description : String
  amount : ℚ
  type : String
  accountId : String
  category : String
  status : String
  bookingId : Option String
  ownerId : String
  deriving DecidableEq, Repr

/-- The per-tenant configuration (only the field the conflict checker
reads). -/
structure StudioConfig where
  bufferMinutes : ℚ
  deriving DecidableEq, Repr

/-- The Firestore-backed state visible to the embedded operations:
the owning tenant id, the three document collections and the config. -/
structure State where
  owner : String
  bookings : List Booking
  accounts : List Account
  transactions : List Transaction
  config : StudioConfig
  deriving DecidableEq, Repr

/-- A notification emitted through `addNotification` (kind is "SUCCESS" or
"ERROR"). -/
structure Notif where
  kind : String
  title : String
  message : String
  deriving DecidableEq, Repr

/-- Result of one outer mutator call: the new state, the value rethrown to
the caller (`none` when the mutator swallows its errors) and the emitted
notification. -/
structure MutResult where
  state : State
  thrown : Option String
  notif : Option Notif
  deriving DecidableEq, Repr

/-- `split(':')` on the character list of a time string (structural
counterpart of `String.splitOn ":"`). -/
def splitOnColon : List Char → List (List Char)
  | [] => [[]]
  | c :: rest =>
    match splitOnColon rest with
    | [] => if c = ':' then [[], [c]] else [[c]]
    | h :: t => if c = ':' then [] :: h :: t else (c :: h) :: t

/-- `Number(...)` on a digit string. -/
def digitsToNat (cs : List Char) : ℕ :=
  cs.foldl (fun n c => n * 10 + (c.toNat - 48)) 0

/-- `timeStart.split(':').map(Number)` followed by `h * 60 + m`:
minutes since midnight of an "HH:MM" string. -/
def timeToMins (s : String) : ℕ :=
  match (splitOnColon s.data).map digitsToNat with
  | h :: m :: _ => h * 60 + m
  | [h] => h * 60
  | [] => 0

/-- Minutes since midnight as a rational, for interval arithmetic. -/
def timeToMinsQ (s : String) : ℚ := (timeToMins s : ℚ)

/-- Firestore point read: `find?` by document id. -/
def findBooking (s : State) (id : String) : Option Booking :=
  s.bookings.find? (fun b => b.id == id)

/-- Firestore point read: `find?` by document id. -/
def findAccount (s : State) (id : String) : Option Account :=
  s.accounts.find? (fun a => a.id == id)

/-- `setDoc` / `transaction.set` on the bookings collection: replace the
document with the same id, or append a new one. -/
def setBookingDoc (l : List Booking) (b : Booking) : List Booking :=
  if l.any (fun x => x.id == b.id) then
    l.map (fun x => if x.id == b.id then b else x)
  else l ++ [b]

/-- `setDoc` / `transaction.set` on the transactions collection. -/
def setTxnDoc (l : List Transaction) (t : Transaction) : List Transaction :=
  if l.any (fun x => x.id == t.id) then
    l.map (fun x => if x.id == t.id then t else x)
  else l ++ [t]

/-- `transaction.update(accountRef, { balance: v })`: rewrite the balance
field of the account(s) with the given id. -/
def updateAccountBalance (l : List Account) (id : String) (v : ℚ) : List Account :=
  l.map (fun a => if a.id == id then { a with balance := v } else a)

/-- `transaction.update(bookingRef, { paidAmount: v })`. -/
def updateBookingPaid (l : List Booking) (id : String) (v : ℚ) : List Booking :=
  l.map (fun b => if b.id == id then { b with paidAmount := v } else b)

/-- The predicate of the `dayBookings.find(...)` scan in
`checkConflictOnServer`: an existing booking `b` conflicts with the
candidate `nb` when it is in the same room, is not cancelled, is not the
candidate itself (by id), and its buffered busy interval overlaps the
candidate's under the half-open test `newStart < bEnd && newEnd > bStart`. -/
def conflictsWith (cfg : StudioConfig) (nb b : Booking) : Bool :=
  if b.status == "CANCELLED" || b.studio != nb.studio || b.id == nb.id then false
  else
    let bufferMins := cfg.bufferMinutes
    let newStartMins := timeToMinsQ nb.timeStart
    let newEndMins := newStartMins + nb.duration * 60 + bufferMins
    let bStartMins := timeToMinsQ b.timeStart
    let bEndMins := bStartMins + b.duration * 60 + bufferMins
    decide (newStartMins < bEndMins) && decide (newEndMins > bStartMins)

/-- The conflict scan of `checkConflictOnServer`: fetch the day's bookings
(the query filters by owner and by the candidate's date), then `find` the
first conflicting booking among them. -/
def roomConflict (owner : String) (cfg : StudioConfig) (bookings : List Booking)
    (nb : Booking) : Option Booking :=
  let dayBookings := bookings.filter (fun b => b.ownerId == owner && b.date == nb.date)
  dayBookings.find? (conflictsWith cfg nb)

/-- `checkConflictOnServer`: throws a message naming the conflicting client
when the scan finds a conflict. -/
def checkConflictOnServer (s : State) (nb : Booking) : Except String Unit :=
  match roomConflict s.owner s.config s.bookings nb with
  | some c => .error ("Conflict detected! Room occupied by " ++ c.clientName ++ ".")
  | none => .ok ()

/-- The optional `paymentDetails` argument of `addBooking`. -/
structure PayDetails where
  amount : ℚ
  accountId : String
  deriving DecidableEq, Repr

/-- `bookingWithAuth`: the candidate stamped with the owning tenant, with
`paidAmount` set to the deposit (`paymentDetails?.amount || 0`) and the
photographer defaulted to the owner. -/
def mkBookingWithAuth (s : State) (nb : Booking) (pd : Option PayDetails) : Booking :=
  { nb with
      ownerId := s.owner
      paidAmount := match pd with | some p => p.amount | none => 0
      photographerId := if nb.photographerId == "" then s.owner else nb.photographerId }

/-- The `runTransaction` body of `addBooking` (deposit path): read the
target account (throw if missing), write the booking, write one INCOME
transaction in category "Sales / Booking" linked to the booking, and set
the account balance to `balance + amount`. -/
def addBookingTxn (s : State) (bwa : Booking) (p : PayDetails) (tid : String) :
    Except String State :=
  match findAccount s p.accountId with
  | none => .error "Account does not exist!"
  | some acc =>
    let newBalance := acc.balance + p.amount
    let newTxn : Transaction :=
      { id := tid
        description := "Deposit - " ++ bwa.clientName
        amount := p.amount
        type := "INCOME"
        accountId := p.accountId
        category := "Sales / Booking"
        status := "COMPLETED"
        bookingId := some bwa.id
        ownerId := s.owner }
    .ok { s with
            bookings := setBookingDoc s.bookings bwa
            transactions := setTxnDoc s.transactions newTxn
            accounts := updateAccountBalance s.accounts p.accountId newBalance }

/-- `addBooking`: pre-flight authoritative conflict check, then either the
transactional deposit write (when a positive payment is attached) or a
plain booking write.  Errors are logged and rethrown to the caller. -/
def addBooking (s : State) (nb : Booking) (pd : Option PayDetails) (tid : String) :
    MutResult :=
  let bwa := mkBookingWithAuth s nb pd
  match checkConflictOnServer s bwa with
  | .error e => ⟨s, some e, none⟩
  | .ok _ =>
    match pd with
    | some p =>
      if p.amount > 0 then
        match addBookingTxn s bwa p tid with
        | .ok s2 =>
            ⟨s2, none, some ⟨"SUCCESS", "Booking Created", nb.clientName ++ " scheduled."⟩⟩
        | .error e => ⟨s, some e, none⟩
      else
        ⟨{ s with bookings := setBookingDoc s.bookings bwa }, none,
          some ⟨"SUCCESS", "Booking Created", nb.clientName ++ " scheduled."⟩⟩
    | none =>
        ⟨{ s with bookings := setBookingDoc s.bookings bwa }, none,
          some ⟨"SUCCESS", "Booking Created", nb.clientName ++ " scheduled."⟩⟩

/-- The argument record of `addTransaction` (record expense). -/
structure ExpenseData where
  description : String
  amount : ℚ
  category : String
  accountId : String
  bookingId : Option String
  deriving DecidableEq, Repr

/-- The `runTransaction` body of `addTransaction`: read the target account
(throw if missing), write one EXPENSE transaction and set the balance to
`balance - amount` (no balance-floor check). -/
def addTransactionTxn (s : State) (d : ExpenseData) (tid : String) :
    Except String State :=
  match findAccount s d.accountId with
  | none => .error "Account not found"
  | some acc =>
    let newTxn : Transaction :=
      { id := tid
        description := d.description
        amount := d.amount
        type := "EXPENSE"
        accountId := d.accountId
        category := d.category
        status := "COMPLETED"
        bookingId := d.bookingId
        ownerId := s.owner }
    .ok { s with
            transactions := setTxnDoc s.transactions newTxn
            accounts := updateAccountBalance s.accounts d.accountId (acc.balance - d.amount) }

/-- `addTransaction` (record expense): the outer `catch` swallows the error
and emits an ERROR notification; nothing is rethrown. -/
def addTransaction (s : State) (d : ExpenseData) (tid : String) : MutResult :=
  match addTransactionTxn s d tid with
  | .ok s2 => ⟨s2, none, some ⟨"SUCCESS", "Expense Recorded", "processed."⟩⟩
  | .error _ => ⟨s, none, some ⟨"ERROR", "Error", "Failed to record expense."⟩⟩

/-- The `runTransaction` body of `settleBooking`: read the booking and the
account (throw if either is missing), add the signed amount to
`paidAmount` and to the balance, and write one transaction with positive
amount `|amount|`, kind INCOME when `amount > 0` and EXPENSE otherwise,
description "Payment - …" vs "Refund - …". -/
def settleBookingTxn (s : State) (bookingId : String) (amount : ℚ)
    (accountId : String) (tid : String) : Except String State :=
  match findBooking s bookingId with
  | none => .error "Booking not found"
  | some bookingData =>
    match findAccount s accountId with
    | none => .error "Account not found"
    | some accountData =>
      let newTrans : Transaction :=
        { id := tid
          description :=
            (if amount > 0 then "Payment - " else "Refund - ") ++ bookingData.clientName
          amount := |amount|
          type := if amount > 0 then "INCOME" else "EXPENSE"
          accountId := accountId
          category := "Sales / Booking"
          status := "COMPLETED"
          bookingId := some bookingId
          ownerId := s.owner }
      .ok { s with
              bookings := updateBookingPaid s.bookings bookingId (bookingData.paidAmount + amount)
              accounts := updateAccountBalance s.accounts accountId (accountData.balance + amount)
              transactions := setTxnDoc s.transactions newTrans }

/-- `settleBooking`: the outer `catch` swallows the error and emits an
ERROR notification; nothing is rethrown. -/
def settleBooking (s : State) (bookingId : String) (amount : ℚ)
    (accountId : String) (tid : String) : MutResult :=
  match settleBookingTxn s bookingId amount accountId tid with
  | .ok s2 => ⟨s2, none, some ⟨"SUCCESS", "Payment Recorded", "processed."⟩⟩
  | .error _ =>
      ⟨s, none, some ⟨"ERROR", "Transaction Failed",
        "Could not process payment. Please try again."⟩⟩

/-- The `runTransaction` body of `transferFunds`: read both accounts (throw
if either is missing), throw "Insufficient funds" when
`fromData.balance < amount`, otherwise update the source balance to
`fromData.balance - amount`, then the destination balance to
`toData.balance + amount` (both computed from the values read before any
write — on the same document the second update wins), and write one
TRANSFER transaction tagged to the source account. -/
def transferFundsTxn (s : State) (fromId toId : String) (amount : ℚ)
    (tid : String) : Except String State :=
  match findAccount s fromId, findAccount s toId with
  | some fromData, some toData =>
    if fromData.balance < amount then .error "Insufficient funds"
    else
      let accounts1 := updateAccountBalance s.accounts fromId (fromData.balance - amount)
      let accounts2 := updateAccountBalance accounts1 toId (toData.balance + amount)
      let newTrans : Transaction :=
        { id := tid
          description := "Transfer to " ++ toData.name
          amount := amount
          type := "TRANSFER"
          accountId := fromId
          category := "Transfer"
          status := "COMPLETED"
          bookingId := none
          ownerId := s.owner }
      .ok { s with
              accounts := accounts2
              transactions := setTxnDoc s.transactions newTrans }
  | _, _ => .error "One or both accounts not found"

/-- `transferFunds`: the outer `catch` swallows the error and emits an
ERROR notification carrying the thrown message (`e.toString()`); nothing is
rethrown. -/
def transferFunds (s : State) (fromId toId : String) (amount : ℚ)
    (tid : String) : MutResult :=
  match transferFundsTxn s fromId toId amount tid with
  | .ok s2 => ⟨s2, none, some ⟨"SUCCESS", "Transfer Complete", "Funds moved successfully."⟩⟩
  | .error e => ⟨s, none, some ⟨"ERROR", "Transfer Failed", e⟩⟩

/-! ## The booking-submission path (`NewBookingModal.handleSubmit`) -/

/-- The conflict classification that `NewBookingModal.handleSubmit`
performs against the client-held `bookings` prop it receives, before
calling `onAddBooking`.  Embedded from the source of `handleSubmit`
(src/components/NewBookingModal.tsx, lines 124-173): the submission path
reads the form and the selected client but never scans the client-held
bookings for an overlap, so its classification is constantly `none`. -/
def clientConflictCheck (clientBookings : List Booking) (nb : Booking) :
    Option Booking :=
  let _ := clientBookings
  let _ := nb
  none

/-- `handleSubmit` followed by `addBooking`: the only local validation is
"payment amount given but no account selected" (which blocks the call with
an alert); otherwise the candidate is handed to `addBooking` with the
payment details attached exactly when the amount is positive.  The
client-held bookings are passed along (as the modal receives them) but do
not influence the outcome. -/
def submitBooking (clientBookings : List Booking) (s : State) (nb : Booking)
    (payAmount : ℚ) (payAccountId : String) (tid : String) : MutResult :=
  let _ := clientConflictCheck clientBookings nb
  if payAmount > 0 && payAccountId == "" then ⟨s, none, none⟩
  else addBooking s nb (if payAmount > 0 then some ⟨payAmount, payAccountId⟩ else none) tid

/-! ## Sequences of ledger operations -/

/-- One completed call of a ledger mutator, with the generated transaction
document id made explicit. -/
inductive Op where
  | book (nb : Booking) (pd : Option PayDetails) (tid : String)
  | expense (d : ExpenseData) (tid : String)
  | settle (bookingId : String) (amount : ℚ) (accountId : String) (tid : String)
  | transfer (fromId toId : String) (amount : ℚ) (tid : String)
  deriving DecidableEq, Repr

/-- The state reached after one mutator call (failed calls leave the state
unchanged). -/
def applyOp (s : State) : Op → State
  | .book nb pd tid => (addBooking s nb pd tid).state
  | .expense d tid => (addTransaction s d tid).state
  | .settle bookingId amount accountId tid =>
      (settleBooking s bookingId amount accountId tid).state
  | .transfer fromId toId amount tid => (transferFunds s fromId toId amount tid).state

/-- The state reached after a sequence of mutator calls. -/
def applyOps (s : State) (ops : List Op) : State := ops.foldl applyOp s

/-- The transaction-document id an operation would write under. -/
def opTid : Op → String
  | .book _ _ tid => tid
  | .expense _ tid => tid
  | .settle _ _ _ tid => tid
  | .transfer _ _ _ tid => tid

/-- Ids of the transaction records currently in the store. -/
def txnIds (s : State) : List String := s.transactions.map (·.id)

/-- Every operation of the sequence uses a transaction id that is not
already taken when its turn comes (`t-Date.now()` ids are assumed unique
across calls). -/
def idsFresh (s : State) : List Op → Bool
  | [] => true
  | op :: rest => !((txnIds s).contains (opTid op)) && idsFresh (applyOp s op) rest

/-- Whether an operation names the given account as the destination of a
funds transfer. -/
def isTransferInto (acc : String) : Op → Bool
  | .transfer _ toId _ _ => toId == acc
  | _ => false

/-- The contribution of one transaction record to the given account,
signed by kind: income positive, expense and transfer negative on the
tagged account, zero on accounts the record is not tagged to. -/
def signedAmount (acc : String) (t : Transaction) : ℚ :=
  if t.accountId == acc then (if t.type == "INCOME" then t.amount else -t.amount) else 0

/-- The signed sum of a transaction log against one account. -/
def signedSum (acc : String) (l : List Transaction) : ℚ :=
  (l.map (signedAmount acc)).sum

/-- The balance the store records for an account (0 when absent). -/
def balanceOfL (l : List Account) (q : String) : ℚ :=
  match l.find? (fun a => a.id == q) with
  | some a => a.balance
  | none => 0

/-- The balance the state records for an account (0 when absent). -/
def balanceOf (s : State) (q : String) : ℚ := balanceOfL s.accounts q

/-- The half-open buffered-interval overlap test, as a proposition. -/
def OverlapsP (buf : ℚ) (nb b : Booking) : Prop :=
  timeToMinsQ nb.timeStart < timeToMinsQ b.timeStart + b.duration * 60 + buf ∧
  timeToMinsQ nb.timeStart + nb.duration * 60 + buf > timeToMinsQ b.timeStart

instance (buf : ℚ) (nb b : Booking) : Decidable (OverlapsP buf nb b) :=
  inferInstanceAs (Decidable (And _ _))

/-! ## Characterisation of the conflict scan -/

theorem conflictsWith_iff (cfg : StudioConfig) (nb b : Booking) :
    conflictsWith cfg nb b = true ↔
      b.status ≠ "CANCELLED" ∧ b.studio = nb.studio ∧ b.id ≠ nb.id ∧
        OverlapsP cfg.bufferMinutes nb b := by
  unfold conflictsWith OverlapsP
  constructor
  · intro hc
    by_cases h : (b.status == "CANCELLED" || b.studio != nb.studio || b.id == nb.id) = true
    · rw [if_pos h] at hc
      exact absurd hc (by simp)
    · rw [if_neg h] at hc
      simp only [Bool.or_eq_true, beq_iff_eq, bne_iff_ne, ne_eq, not_or, not_not] at h
      simp only [Bool.and_eq_true, decide_eq_true_eq] at hc
      obtain ⟨⟨ha, hb⟩, hid⟩ := h
      exact ⟨ha, hb, hid, hc.1, hc.2⟩
  · rintro ⟨h1, h2, h3, h4, h5⟩
    have h : (b.status == "CANCELLED" || b.studio != nb.studio || b.id == nb.id) = false := by
      simp only [Bool.or_eq_false_iff, beq_eq_false_iff_ne, ne_eq, bne_eq_false_iff_eq]
      exact ⟨⟨h1, h2⟩, h3⟩
    rw [if_neg (by simp [h])]
    simp only [Bool.and_eq_true, decide_eq_true_eq]
    exact ⟨h4, h5⟩

theorem roomConflict_isSome_iff (owner : String) (cfg : StudioConfig)
    (bookings : List Booking) (nb : Booking) :
    (roomConflict owner cfg bookings nb).isSome = true ↔
      ∃ b ∈ bookings, b.ownerId = owner ∧ b.date = nb.date ∧
        b.status ≠ "CANCELLED" ∧ b.studio = nb.studio ∧ b.id ≠ nb.id ∧
        OverlapsP cfg.bufferMinutes nb b := by
  unfold roomConflict
  rw [List.find?_isSome]
  constructor
  · rintro ⟨b, hmem, hc⟩
    rw [List.mem_filter] at hmem
    obtain ⟨hmem, hflt⟩ := hmem
    simp only [Bool.and_eq_true, beq_iff_eq] at hflt
    rw [conflictsWith_iff] at hc
    exact ⟨b, hmem, hflt.1, hflt.2, hc⟩
  · rintro ⟨b, hmem, how, hdt, hrest⟩
    refine ⟨b, ?_, ?_⟩
    · rw [List.mem_filter]
      exact ⟨hmem, by simp [how, hdt]⟩
    · rw [conflictsWith_iff]; exact hrest

theorem roomConflict_eq_none_iff (owner : String) (cfg : StudioConfig)
    (bookings : List Booking) (nb : Booking) :
    roomConflict owner cfg bookings nb = none ↔
      ∀ b ∈ bookings, b.ownerId = owner → b.date = nb.date →
        b.status ≠ "CANCELLED" → b.studio = nb.studio → b.id ≠ nb.id →
        ¬ OverlapsP cfg.bufferMinutes nb b := by
  rw [← Option.not_isSome_iff_eq_none, roomConflict_isSome_iff]
  constructor
  · intro h b hmem how hdt hst hsd hid hov
    exact h ⟨b, hmem, how, hdt, hst, hsd, hid, hov⟩
  · rintro h ⟨b, hmem, how, hdt, hst, hsd, hid, hov⟩
    exact h b hmem how hdt hst hsd hid hov

/-! ## List-store helper lemmas -/

theorem find_updateAccountBalance (l : List Account) (aid : String) (v : ℚ)
    (q : String) :
    (updateAccountBalance l aid v).find? (fun a => a.id == q)
      = (l.find? (fun a => a.id == q)).map
          (fun a => if a.id == aid then { a with balance := v } else a) := by
  unfold updateAccountBalance
  have hp :
      ((fun a : Account => a.id == q) ∘
        (fun a => if a.id == aid then { a with balance := v } else a))
      = (fun a : Account => a.id == q) := by
    funext a
    by_cases h : (a.id == aid) = true <;> simp [Function.comp, h]
  rw [List.find?_map, hp]

theorem balanceOfL_update_self (l : List Account) (aid : String) (v : ℚ)
    (a : Account) (h : l.find? (fun x => x.id == aid) = some a) :
    balanceOfL (updateAccountBalance l aid v) aid = v := by
  have hid : a.id = aid := by simpa using List.find?_some h
  simp [balanceOfL, find_updateAccountBalance, h, hid]

theorem balanceOfL_update_other (l : List Account) (aid : String) (v : ℚ)
    (q : String) (h : q ≠ aid) :
    balanceOfL (updateAccountBalance l aid v) q = balanceOfL l q := by
  simp only [balanceOfL, find_updateAccountBalance]
  cases hf : l.find? (fun x => x.id == q) with
  | none => simp
  | some a =>
    have hid : a.id = q := by simpa using List.find?_some hf
    simp [hid, h]

theorem find_updateBookingPaid (l : List Booking) (bid : String) (v : ℚ)
    (q : String) :
    (updateBookingPaid l bid v).find? (fun b => b.id == q)
      = (l.find? (fun b => b.id == q)).map
          (fun b => if b.id == bid then { b with paidAmount := v } else b) := by
  unfold updateBookingPaid
  have hp :
      ((fun b : Booking => b.id == q) ∘
        (fun b => if b.id == bid then { b with paidAmount := v } else b))
      = (fun b : Booking => b.id == q) := by
    funext b
    by_cases h : (b.id == bid) = true <;> simp [Function.comp, h]
  rw [List.find?_map, hp]

theorem setTxnDoc_of_fresh (l : List Transaction) (t : Transaction)
    (h : ∀ x ∈ l, x.id ≠ t.id) : setTxnDoc l t = l ++ [t] := by
  unfold setTxnDoc
  rw [if_neg]
  simp only [List.any_eq_true, beq_iff_eq, not_exists, not_and]
  exact fun x hx => h x hx

theorem txnIds_not_contains_iff (s : State) (tid : String) :
    ((txnIds s).contains tid = false) ↔ ∀ x ∈ s.transactions, x.id ≠ tid := by
  rw [← Bool.not_eq_true, List.contains_eq_any_beq]
  simp only [txnIds, List.any_eq_true, List.mem_map, beq_iff_eq, not_exists, not_and]
  constructor
  · intro h x hx hxa
    exact h x.id ⟨x, hx, rfl⟩ hxa.symm
  · rintro h i ⟨x, hx, rfl⟩ hi
    exact h x hx hi.symm

theorem signedSum_append (acc : String) (l1 l2 : List Transaction) :
    signedSum acc (l1 ++ l2) = signedSum acc l1 + signedSum acc l2 := by
  simp [signedSum]

theorem signedSum_singleton (acc : String) (t : Transaction) :
    signedSum acc [t] = signedAmount acc t := by
  simp [signedSum]

theorem find_updateAccountBalance_self (l : List Account) (aid : String) (v : ℚ)
    (a : Account) (h : l.find? (fun x => x.id == aid) = some a) :
    (updateAccountBalance l aid v).find? (fun x => x.id == aid)
      = some { a with balance := v } := by
  have hid : a.id = aid := by simpa using List.find?_some h
  rw [find_updateAccountBalance, h]
  simp [hid]

theorem find_updateBookingPaid_self (l : List Booking) (bid : String) (v : ℚ)
    (b : Booking) (h : l.find? (fun x => x.id == bid) = some b) :
    (updateBookingPaid l bid v).find? (fun x => x.id == bid)
      = some { b with paidAmount := v } := by
  have hid : b.id = bid := by simpa using List.find?_some h
  rw [find_updateBookingPaid, h]
  simp [hid]

/-! ## Success-path characterisations of the mutators -/

theorem settleBooking_ok (s : State) (bid : String) (amt : ℚ) (aid tid : String)
    (bd : Booking) (ad : Account)
    (hb : findBooking s bid = some bd) (ha : findAccount s aid = some ad) :
    settleBooking s bid amt aid tid =
      ⟨{ s with
          bookings := updateBookingPaid s.bookings bid (bd.paidAmount + amt)
          accounts := updateAccountBalance s.accounts aid (ad.balance + amt)
          transactions := setTxnDoc s.transactions
            { id := tid
              description := (if amt > 0 then "Payment - " else "Refund - ") ++ bd.clientName
              amount := |amt|
              type := if amt > 0 then "INCOME" else "EXPENSE"
              accountId := aid
              category := "Sales / Booking"
              status := "COMPLETED"
              bookingId := some bid
              ownerId := s.owner } },
        none, some ⟨"SUCCESS", "Payment Recorded", "processed."⟩⟩ := by
  simp [settleBooking, settleBookingTxn, hb, ha]

theorem transferFunds_ok (s : State) (fromId toId : String) (amt : ℚ) (tid : String)
    (fromData toData : Account)
    (hf : findAccount s fromId = some fromData) (ht : findAccount s toId = some toData)
    (hge : ¬ fromData.balance < amt) :
    transferFunds s fromId toId amt tid =
      ⟨{ s with
          accounts := updateAccountBalance
            (updateAccountBalance s.accounts fromId (fromData.balance - amt))
            toId (toData.balance + amt)
          transactions := setTxnDoc s.transactions
            { id := tid
              description := "Transfer to " ++ toData.name
              amount := amt
              type := "TRANSFER"
              accountId := fromId
              category := "Transfer"
              status := "COMPLETED"
              bookingId := none
              ownerId := s.owner } },
        none, some ⟨"SUCCESS", "Transfer Complete", "Funds moved successfully."⟩⟩ := by
  simp [transferFunds, transferFundsTxn, hf, ht, hge]

theorem addTransaction_ok (s : State) (d : ExpenseData) (tid : String)
    (a : Account) (ha : findAccount s d.accountId = some a) :
    addTransaction s d tid =
      ⟨{ s with
          transactions := setTxnDoc s.transactions
            { id := tid
              description := d.description
              amount := d.amount
              type := "EXPENSE"
              accountId := d.accountId
              category := d.category
              status := "COMPLETED"
              bookingId := d.bookingId
              ownerId := s.owner }
          accounts := updateAccountBalance s.accounts d.accountId (a.balance - d.amount) },
        none, some ⟨"SUCCESS", "Expense Recorded", "processed."⟩⟩ := by
  simp [addTransaction, addTransactionTxn, ha]

theorem addBooking_deposit_ok (s : State) (nb : Booking) (p : PayDetails) (tid : String)
    (a : Account)
    (hnc : roomConflict s.owner s.config s.bookings (mkBookingWithAuth s nb (some p)) = none)
    (hamt : p.amount > 0)
    (ha : findAccount s p.accountId = some a) :
    addBooking s nb (some p) tid =
      ⟨{ s with
          bookings := setBookingDoc s.bookings (mkBookingWithAuth s nb (some p))
          transactions := setTxnDoc s.transactions
            { id := tid
              description := "Deposit - " ++ (mkBookingWithAuth s nb (some p)).clientName
              amount := p.amount
              type := "INCOME"
              accountId := p.accountId
              category := "Sales / Booking"
              status := "COMPLETED"
              bookingId := some (mkBookingWithAuth s nb (some p)).id
              ownerId := s.owner }
          accounts := updateAccountBalance s.accounts p.accountId (a.balance + p.amount) },
        none, some ⟨"SUCCESS", "Booking Created", nb.clientName ++ " scheduled."⟩⟩ := by
  simp [addBooking, checkConflictOnServer, hnc, hamt, addBookingTxn, ha]

theorem addBooking_nopay_ok (s : State) (nb : Booking) (pd : Option PayDetails)
    (tid : String)
    (hnc : roomConflict s.owner s.config s.bookings (mkBookingWithAuth s nb pd) = none)
    (hz : ∀ p, pd = some p → ¬ p.amount > 0) :
    addBooking s nb pd tid =
      ⟨{ s with bookings := setBookingDoc s.bookings (mkBookingWithAuth s nb pd) },
        none, some ⟨"SUCCESS", "Booking Created", nb.clientName ++ " scheduled."⟩⟩ := by
  cases pd with
  | none => simp [addBooking, checkConflictOnServer, hnc]
  | some p => simp [addBooking, checkConflictOnServer, hnc, hz p rfl]

/-! ## The ledger balance / signed-sum correspondence, one step at a time -/

theorem delta_one_txn (s : State) (acc : String) (newAccounts : List Account)
    (T : Transaction) (hfresh : ∀ x ∈ s.transactions, x.id ≠ T.id)
    (hbal : balanceOfL newAccounts acc - balanceOfL s.accounts acc = signedAmount acc T) :
    balanceOfL newAccounts acc - balanceOfL s.accounts acc
      = signedSum acc (setTxnDoc s.transactions T) - signedSum acc s.transactions := by
  rw [setTxnDoc_of_fresh _ _ hfresh, signedSum_append, signedSum_singleton]
  linarith

/-- Each single mutator call moves an account's recorded balance by exactly
the signed sum of the transaction records it writes against that account —
provided the account is not the destination of a funds transfer and the
generated transaction id is not already taken. -/
theorem balance_signedSum_step (s : State) (op : Op) (acc : String)
    (hfresh : (txnIds s).contains (opTid op) = false)
    (hdest : isTransferInto acc op = false) :
    balanceOf (applyOp s op) acc - balanceOf s acc
      = signedSum acc (applyOp s op).transactions - signedSum acc s.transactions := by
  have hfreshP : ∀ x ∈ s.transactions, x.id ≠ opTid op :=
    (txnIds_not_contains_iff s _).mp hfresh
  cases op with
  | book nb pd tid =>
    simp only [opTid] at hfreshP
    simp only [applyOp, addBooking]
    cases hc : checkConflictOnServer s (mkBookingWithAuth s nb pd) with
    | error e => simp
    | ok u =>
      cases pd with
      | none => simp [balanceOf]
      | some p =>
        by_cases hamt : p.amount > 0
        · simp only [if_pos hamt]
          cases ha : findAccount s p.accountId with
          | none => simp [addBookingTxn, ha]
          | some a =>
            simp only [addBookingTxn, ha]
            simp only [balanceOf]
            apply delta_one_txn s acc _ _ (by simpa using hfreshP)
            unfold findAccount at ha
            by_cases hacc : acc = p.accountId
            · subst hacc
              rw [balanceOfL_update_self _ _ _ _ ha]
              simp [balanceOfL, ha, signedAmount]
            · rw [balanceOfL_update_other _ _ _ _ hacc]
              have : (p.accountId == acc) = false := by
                simp [Ne.symm hacc]
              simp [signedAmount, this]
        · simp [if_neg hamt, balanceOf]
  | expense d tid =>
    simp only [opTid] at hfreshP
    simp only [applyOp, addTransaction]
    cases ha : findAccount s d.accountId with
    | none => simp [addTransactionTxn, ha]
    | some a =>
      simp only [addTransactionTxn, ha]
      simp only [balanceOf]
      apply delta_one_txn s acc _ _ (by simpa using hfreshP)
      unfold findAccount at ha
      by_cases hacc : acc = d.accountId
      · subst hacc
        rw [balanceOfL_update_self _ _ _ _ ha]
        simp only [balanceOfL, ha, signedAmount]
        simp
      · rw [balanceOfL_update_other _ _ _ _ hacc]
        have : (d.accountId == acc) = false := by simp [Ne.symm hacc]
        simp [signedAmount, this]
  | settle bid amt aid tid =>
    simp only [opTid] at hfreshP
    simp only [applyOp, settleBooking]
    cases hb : findBooking s bid with
    | none => simp [settleBookingTxn, hb]
    | some bd =>
      cases ha : findAccount s aid with
      | none => simp [settleBookingTxn, hb, ha]
      | some ad =>
        simp only [settleBookingTxn, hb, ha]
        simp only [balanceOf]
        apply delta_one_txn s acc _ _ (by simpa using hfreshP)
        unfold findAccount at ha
        by_cases hacc : acc = aid
        · subst hacc
          rw [balanceOfL_update_self _ _ _ _ ha]
          simp only [balanceOfL, ha, signedAmount]
          by_cases hpos : amt > 0
          · simp [hpos, abs_of_pos hpos]
          · simp only [if_neg hpos]
            simp
            rw [abs_of_nonpos (le_of_not_lt hpos)]
            ring
        · rw [balanceOfL_update_other _ _ _ _ hacc]
          have : (aid == acc) = false := by simp [Ne.symm hacc]
          simp [signedAmount, this]
  | transfer fromId toId amt tid =>
    simp only [opTid] at hfreshP
    simp only [isTransferInto] at hdest
    have htoacc : toId ≠ acc := by simpa using hdest
    simp only [applyOp, transferFunds]
    cases hf : findAccount s fromId with
    | none => simp [transferFundsTxn, hf]
    | some fromData =>
      cases ht : findAccount s toId with
      | none => simp [transferFundsTxn, hf, ht]
      | some toData =>
        by_cases hins : fromData.balance < amt
        · simp [transferFundsTxn, hf, ht, hins]
        · simp only [transferFundsTxn, hf, ht, if_neg hins]
          simp only [balanceOf]
          apply delta_one_txn s acc _ _ (by simpa using hfreshP)
          unfold findAccount at hf
          have hother2 : acc ≠ toId := fun h => htoacc h.symm
          rw [balanceOfL_update_other _ _ _ _ hother2]
          by_cases hacc : acc = fromId
          · subst hacc
            rw [balanceOfL_update_self _ _ _ _ hf]
            simp only [balanceOfL, hf, signedAmount]
            simp
          · rw [balanceOfL_update_other _ _ _ _ hacc]
            have : (fromId == acc) = false := by simp [Ne.symm hacc]
            simp [signedAmount, this]

/-- Over any sequence of mutator calls with fresh transaction ids, the
change in an account's recorded balance equals the change in the signed sum
of the transaction log against it, provided no call of the sequence names
the account as the destination of a funds transfer. -/
theorem balance_signedSum_invariant (ops : List Op) : ∀ (s0 : State) (acc : String),
    idsFresh s0 ops = true →
    (ops.all (fun op => !(isTransferInto acc op))) = true →
    balanceOf (applyOps s0 ops) acc - balanceOf s0 acc
      = signedSum acc (applyOps s0 ops).transactions - signedSum acc s0.transactions := by
  induction ops with
  | nil => intro s0 acc _ _; simp [applyOps]
  | cons op rest ih =>
    intro s0 acc hfresh hall
    simp only [idsFresh, Bool.and_eq_true, Bool.not_eq_true'] at hfresh
    simp only [List.all_cons, Bool.and_eq_true, Bool.not_eq_true'] at hall
    have hstep := balance_signedSum_step s0 op acc hfresh.1 hall.1
    have hrest := ih (applyOp s0 op) acc hfresh.2 hall.2
    have happ : applyOps s0 (op :: rest) = applyOps (applyOp s0 op) rest := rfl
    rw [happ]
    linarith [hstep, hrest]

theorem find_map_replace (l : List Booking) (b : Booking) :
    (l.map (fun x => if x.id == b.id then b else x)).find? (fun x => x.id == b.id)
      = if l.any (fun x => x.id == b.id) then some b else none := by
  induction l with
  | nil => simp
  | cons a t ih =>
    simp only [List.map_cons, List.any_cons]
    by_cases h : (a.id == b.id) = true
    · rw [if_pos h, List.find?_cons_of_pos _ (by simp)]
      simp [h]
    · rw [if_neg h, List.find?_cons_of_neg _ (by simpa using h), ih]
      simp [h]

theorem find_setBookingDoc_self (l : List Booking) (b : Booking) :
    (setBookingDoc l b).find? (fun x => x.id == b.id) = some b := by
  unfold setBookingDoc
  by_cases h : l.any (fun x => x.id == b.id) = true
  · rw [if_pos h, find_map_replace, if_pos h]
  · rw [if_neg h, List.find?_append]
    have hnone : l.find? (fun x => x.id == b.id) = none := by
      rw [List.find?_eq_none]
      intro x hx hpx
      exact h (List.any_eq_true.mpr ⟨x, hx, hpx⟩)
    rw [hnone]
    simp [List.find?]

/-! ## Concrete fixtures used by witnesses and counterexamples -/

/-- "Main Studio" booked 10:00–12:00 (busy until 12:30 with a 30-minute
buffer). -/
def bkMain : Booking :=
  { id := "bA", clientName := "Alice", date := "2026-03-01", timeStart := "10:00",
    duration := 2, studio := "Main Studio", paidAmount := 0, status := "BOOKED",
    photographerId := "ow", ownerId := "ow" }

/-- A candidate booking in the same room on the same date. -/
def candAt (t : String) (d : ℚ) : Booking :=
  { id := "bB", clientName := "Bob", date := "2026-03-01", timeStart := t,
    duration := d, studio := "Main Studio", paidAmount := 0, status := "BOOKED",
    photographerId := "", ownerId := "ow" }

def accA : Account := { id := "A", name := "Main Bank", balance := 100, ownerId := "ow" }

def accB : Account := { id := "B", name := "Cash", balance := 0, ownerId := "ow" }

def cfgB30 : StudioConfig := ⟨30⟩

def baseState : State :=
  { owner := "ow", bookings := [bkMain], accounts := [accA, accB],
    transactions := [], config := cfgB30 }

theorem timeQ_1000 : timeToMinsQ "10:00" = 600 := by
  rw [timeToMinsQ, show timeToMins "10:00" = 600 from rfl]; norm_num

theorem timeQ_1215 : timeToMinsQ "12:15" = 735 := by
  rw [timeToMinsQ, show timeToMins "12:15" = 735 from rfl]; norm_num

theorem timeQ_1230 : timeToMinsQ "12:30" = 750 := by
  rw [timeToMinsQ, show timeToMins "12:30" = 750 from rfl]; norm_num

theorem timeQ_1300 : timeToMinsQ "13:00" = 780 := by
  rw [timeToMinsQ, show timeToMins "13:00" = 780 from rfl]; norm_num

theorem timeQ_1500 : timeToMinsQ "15:00" = 900 := by
  rw [timeToMinsQ, show timeToMins "15:00" = 900 from rfl]; norm_num

theorem timeQ_1030 : timeToMinsQ "10:30" = 630 := by
  rw [timeToMinsQ, show timeToMins "10:30" = 630 from rfl]; norm_num

/-- A candidate at 15:00 never conflicts with the base state's single
booking (10:00–12:00, buffered to 12:30), whatever payment details are
attached. -/
theorem roomConflict_base15_none (pd : Option PayDetails) (d : ℚ) :
    roomConflict baseState.owner baseState.config baseState.bookings
      (mkBookingWithAuth baseState (candAt "15:00" d) pd) = none := by
  rw [roomConflict_eq_none_iff]
  intro b hb
  have hb' : b = bkMain := by simpa [baseState] using hb
  subst hb'
  intro _ _ _ _ _ hov
  have hx := hov.1
  have he : (mkBookingWithAuth baseState (candAt "15:00" d) pd).timeStart = "15:00" := rfl
  rw [he] at hx
  simp only [bkMain, baseState, cfgB30] at hx
  rw [timeQ_1500, timeQ_1000] at hx
  norm_num at hx

/-- A candidate at 10:30 does conflict with the base state's booking, and
the scan returns that booking. -/
theorem roomConflict_base1030_some (pd : Option PayDetails) :
    roomConflict baseState.owner baseState.config baseState.bookings
      (mkBookingWithAuth baseState (candAt "10:30" 1) pd) = some bkMain := by
  unfold roomConflict
  have hfilter : baseState.bookings.filter
      (fun b => b.ownerId == baseState.owner
        && b.date == (mkBookingWithAuth baseState (candAt "10:30" 1) pd).date)
      = [bkMain] := by
    simp [baseState, bkMain, mkBookingWithAuth, candAt]
  rw [hfilter]
  have hpred : conflictsWith baseState.config
      (mkBookingWithAuth baseState (candAt "10:30" 1) pd) bkMain = true := by
    rw [conflictsWith_iff]
    refine ⟨by decide, rfl, show ("bA" : String) ≠ "bB" by decide, ?_, ?_⟩
    · show timeToMinsQ (mkBookingWithAuth baseState (candAt "10:30" 1) pd).timeStart
        < timeToMinsQ bkMain.timeStart + bkMain.duration * 60
            + baseState.config.bufferMinutes
      rw [show (mkBookingWithAuth baseState (candAt "10:30" 1) pd).timeStart = "10:30" from rfl,
        show bkMain.timeStart = "10:00" from rfl, timeQ_1030, timeQ_1000,
        show bkMain.duration = 2 from rfl,
        show baseState.config.bufferMinutes = 30 from rfl]
      norm_num
    · show timeToMinsQ (mkBookingWithAuth baseState (candAt "10:30" 1) pd).timeStart
          + (mkBookingWithAuth baseState (candAt "10:30" 1) pd).duration * 60
          + baseState.config.bufferMinutes
        > timeToMinsQ bkMain.timeStart
      rw [show (mkBookingWithAuth baseState (candAt "10:30" 1) pd).timeStart = "10:30" from rfl,
        show bkMain.timeStart = "10:00" from rfl, timeQ_1030, timeQ_1000,
        show (mkBookingWithAuth baseState (candAt "10:30" 1) pd).duration = 1 from rfl,
        show baseState.config.bufferMinutes = 30 from rfl]
      norm_num
  simp [List.find?, hpred]

/-! ## Claims -/

/-- C2: the conflict checker reports a conflict exactly when some existing
booking on the same date, in the same room, that is not cancelled and is
not the booking being edited (matched by identity), has a buffered busy
interval `[start, start + duration*60 + B)` that overlaps the candidate's
busy interval under the half-open test
`candidateStart < existingEnd AND candidateEnd > existingStart`; touching
endpoints are never a conflict and cancelled bookings never participate. -/
theorem c2_conflict_checker_exact (owner : String) (cfg : StudioConfig)
    (bookings : List Booking) (nb : Booking) :
    (roomConflict owner cfg bookings nb).isSome = true ↔
      ∃ b ∈ bookings, b.ownerId = owner ∧ b.date = nb.date ∧
        b.status ≠ "CANCELLED" ∧ b.studio = nb.studio ∧ b.id ≠ nb.id ∧
        timeToMinsQ nb.timeStart
            < timeToMinsQ b.timeStart + b.duration * 60 + cfg.bufferMinutes ∧
        timeToMinsQ nb.timeStart + nb.duration * 60 + cfg.bufferMinutes
            > timeToMinsQ b.timeStart := by
  rw [roomConflict_isSome_iff]
  unfold OverlapsP
  tauto

/-- C8 is stated with the overlap condition
`|startA - startB| < durationA*60 + durationB*60 + B`; the code's test is
stricter.  Concretely: booking A at 10:00 for 2h, candidate at 13:00 for
5h, buffer 30 — the claim's inequality holds (180 < 450) yet the checker
reports no conflict (13:00 is past A's buffered end 12:30). -/
theorem c8_counterexample :
    |timeToMinsQ "10:00" - timeToMinsQ "13:00"| < 2 * 60 + 5 * 60 + (30 : ℚ) ∧
    roomConflict "ow" cfgB30 [bkMain] (candAt "13:00" 5) = none := by
  constructor
  · rw [timeQ_1000, timeQ_1300]; norm_num
  · rw [roomConflict_eq_none_iff]
    intro b hb
    simp only [List.mem_singleton] at hb
    subst hb
    intro _ _ _ _ _ hov
    have h1 := hov.1
    simp only [candAt, bkMain, cfgB30] at h1
    rw [timeQ_1300, timeQ_1000] at h1
    norm_num at h1

/-- C8 (amended): for a pair of bookings in the same room on the same date
with buffer B, the checker reports a conflict iff both one-sided
inequalities hold: `startB - startA < durationA*60 + B` and
`startA - startB < durationB*60 + B` (equivalently, the buffered half-open
intervals overlap); in particular, with buffer 30 minutes, booking A at
10:00 for 2 hours conflicts with a proposal at 12:15 for 1 hour but not
with a proposal at 12:30. -/
theorem c8_pairwise_amended (owner : String) (cfg : StudioConfig) (A nb : Booking)
    (h1 : A.ownerId = owner) (h2 : A.date = nb.date) (h3 : A.status ≠ "CANCELLED")
    (h4 : A.studio = nb.studio) (h5 : A.id ≠ nb.id) :
    ((roomConflict owner cfg [A] nb).isSome = true ↔
      (timeToMinsQ nb.timeStart - timeToMinsQ A.timeStart
          < A.duration * 60 + cfg.bufferMinutes ∧
       timeToMinsQ A.timeStart - timeToMinsQ nb.timeStart
          < nb.duration * 60 + cfg.bufferMinutes)) ∧
    (roomConflict "ow" cfgB30 [bkMain] (candAt "12:15" 1)).isSome = true ∧
    roomConflict "ow" cfgB30 [bkMain] (candAt "12:30" 1) = none := by
  refine ⟨?_, ?_, ?_⟩
  · rw [roomConflict_isSome_iff]
    unfold OverlapsP
    constructor
    · rintro ⟨b, hb, -, -, -, -, -, hov1, hov2⟩
      simp only [List.mem_singleton] at hb
      subst hb
      constructor <;> linarith
    · rintro ⟨hov1, hov2⟩
      exact ⟨A, List.mem_singleton_self A, h1, h2, h3, h4, h5,
        by linarith, by linarith⟩
  · rw [roomConflict_isSome_iff]
    refine ⟨bkMain, List.mem_singleton_self _, rfl, rfl, by decide, rfl, by decide, ?_, ?_⟩
    · simp only [candAt, bkMain, cfgB30]
      rw [timeQ_1215, timeQ_1000]
      norm_num
    · simp only [candAt, bkMain, cfgB30]
      rw [timeQ_1215, timeQ_1000]
      norm_num
  · rw [roomConflict_eq_none_iff]
    intro b hb
    simp only [List.mem_singleton] at hb
    subst hb
    intro _ _ _ _ _ hov
    have h1 := hov.1
    simp only [candAt, bkMain, cfgB30] at h1
    rw [timeQ_1230, timeQ_1000] at h1
    norm_num at h1

/-- C1 fails on the code as stated: a funds transfer increments the
destination account's balance but its single transaction record is tagged
to the source account only, so after transferring 50 from account "A"
(balance 100) to account "B" (balance 0) the destination's balance moved
by 50 while the signed sum of the records written against it moved by 0. -/
theorem c1_counterexample :
    balanceOf (applyOps baseState [Op.transfer "A" "B" 50 "t1"]) "B"
        - balanceOf baseState "B"
      ≠ signedSum "B" (applyOps baseState [Op.transfer "A" "B" 50 "t1"]).transactions
        - signedSum "B" baseState.transactions := by
  have hok := transferFunds_ok baseState "A" "B" 50 "t1" accA accB rfl rfl
    (by rw [show accA.balance = 100 from rfl]; norm_num)
  have happ : applyOps baseState [Op.transfer "A" "B" 50 "t1"]
      = (transferFunds baseState "A" "B" 50 "t1").state := rfl
  rw [happ, hok]
  simp [balanceOf, balanceOfL, signedSum, signedAmount, setTxnDoc,
    updateAccountBalance, baseState, accA, accB, List.find?]

/-- C1 (amended): over any sequence of completed ledger operations with
fresh transaction ids, each account's balance moves by exactly the signed
sum (income positive, expense negative, transfer negative on the tagged
source account) of the transaction records written against it — provided
the account is never named as the destination of a funds transfer, since a
transfer mutates the destination's balance without writing any record
against the destination. -/
theorem c1_ledger_invariant_amended (s0 : State) (ops : List Op) (acc : String)
    (hfresh : idsFresh s0 ops = true)
    (hdest : (ops.all (fun op => !(isTransferInto acc op))) = true) :
    balanceOf (applyOps s0 ops) acc - balanceOf s0 acc
      = signedSum acc (applyOps s0 ops).transactions - signedSum acc s0.transactions :=
  balance_signedSum_invariant ops s0 acc hfresh hdest

/-- Witness for `c1_ledger_invariant_amended`: an expense of 20 and a
settlement of 30, both against account "A", from the concrete base state. -/
theorem c1_ledger_invariant_amended_witness :
    idsFresh baseState
        [Op.expense ⟨"film", 20, "Gear", "A", none⟩ "t1", Op.settle "bA" 30 "A" "t2"]
        = true ∧
    ([Op.expense ⟨"film", 20, "Gear", "A", none⟩ "t1",
        Op.settle "bA" 30 "A" "t2"].all (fun op => !(isTransferInto "A" op))) = true ∧
    balanceOf (applyOps baseState
        [Op.expense ⟨"film", 20, "Gear", "A", none⟩ "t1", Op.settle "bA" 30 "A" "t2"]) "A"
        - balanceOf baseState "A"
      = signedSum "A" (applyOps baseState
          [Op.expense ⟨"film", 20, "Gear", "A", none⟩ "t1",
            Op.settle "bA" 30 "A" "t2"]).transactions
        - signedSum "A" baseState.transactions :=
  ⟨by decide, by decide,
    c1_ledger_invariant_amended baseState
      [Op.expense ⟨"film", 20, "Gear", "A", none⟩ "t1", Op.settle "bA" 30 "A" "t2"]
      "A" (by decide) (by decide)⟩

/-- C10: a transfer whose source and destination ids are equal and whose
amount does not exceed the account's balance commits successfully; the
source decrement is overwritten by the destination increment computed from
the pre-read balance, so the account's final balance is its initial balance
PLUS the amount, and one transfer transaction is still recorded. -/
theorem c10_self_transfer_creates_funds (s : State) (aid : String) (amt : ℚ)
    (tid : String) (a : Account)
    (ha : findAccount s aid = some a) (hle : ¬ a.balance < amt)
    (hfresh : ∀ x ∈ s.transactions, x.id ≠ tid) :
    (transferFunds s aid aid amt tid).thrown = none ∧
    (transferFunds s aid aid amt tid).notif
        = some ⟨"SUCCESS", "Transfer Complete", "Funds moved successfully."⟩ ∧
    balanceOf (transferFunds s aid aid amt tid).state aid = a.balance + amt ∧
    (transferFunds s aid aid amt tid).state.transactions
      = s.transactions ++
          [{ id := tid, description := "Transfer to " ++ a.name, amount := amt,
             type := "TRANSFER", accountId := aid, category := "Transfer",
             status := "COMPLETED", bookingId := none, ownerId := s.owner }] := by
  have hok := transferFunds_ok s aid aid amt tid a a ha ha hle
  rw [hok]
  refine ⟨rfl, rfl, ?_, ?_⟩
  · simp only [balanceOf]
    exact balanceOfL_update_self _ _ _ _
      (find_updateAccountBalance_self _ _ _ _ (by simpa [findAccount] using ha))
  · exact setTxnDoc_of_fresh _ _ (by simpa using hfresh)

/-- Witness for `c10_self_transfer_creates_funds`: transferring 40 from
account "A" (balance 100) to itself leaves it at 140 with one TRANSFER
record. -/
theorem c10_self_transfer_creates_funds_witness :
    (transferFunds baseState "A" "A" 40 "t1").thrown = none ∧
    (transferFunds baseState "A" "A" 40 "t1").notif
        = some ⟨"SUCCESS", "Transfer Complete", "Funds moved successfully."⟩ ∧
    balanceOf (transferFunds baseState "A" "A" 40 "t1").state "A" = accA.balance + 40 ∧
    (transferFunds baseState "A" "A" 40 "t1").state.transactions
      = baseState.transactions ++
          [{ id := "t1", description := "Transfer to " ++ accA.name, amount := 40,
             type := "TRANSFER", accountId := "A", category := "Transfer",
             status := "COMPLETED", bookingId := none, ownerId := baseState.owner }] :=
  c10_self_transfer_creates_funds baseState "A" 40 "t1" accA rfl
    (by rw [show accA.balance = 100 from rfl]; norm_num) (by simp [baseState])

/-- C4 fails on the code as stated: for a self-transfer with sufficient
balance the operation commits, but the source balance is not decremented
by the amount — transferring 40 from account "A" (balance 100) to itself
leaves "A" at 140, not 60. -/
theorem c4_counterexample :
    (transferFunds baseState "A" "A" 40 "t1").thrown = none ∧
    balanceOf (transferFunds baseState "A" "A" 40 "t1").state "A"
      ≠ balanceOf baseState "A" - 40 := by
  have hok := transferFunds_ok baseState "A" "A" 40 "t1" accA accA rfl rfl
    (by rw [show accA.balance = 100 from rfl]; norm_num)
  refine ⟨by rw [hok], ?_⟩
  have hacc : (transferFunds baseState "A" "A" 40 "t1").state.accounts
      = updateAccountBalance
          (updateAccountBalance baseState.accounts "A" (accA.balance - 40)) "A"
          (accA.balance + 40) := by rw [hok]
  have hfind : baseState.accounts.find? (fun x => x.id == "A") = some accA := rfl
  have houter := balanceOfL_update_self
    (updateAccountBalance baseState.accounts "A" (accA.balance - 40)) "A"
    (accA.balance + 40) _
    (find_updateAccountBalance_self baseState.accounts "A" (accA.balance - 40) accA hfind)
  show balanceOfL (transferFunds baseState "A" "A" 40 "t1").state.accounts "A"
      ≠ balanceOfL baseState.accounts "A" - 40
  rw [hacc, houter]
  rw [show accA.balance = 100 from rfl,
    show balanceOfL baseState.accounts "A" = 100 from rfl]
  norm_num

/-- C4 (amended): when the source balance is strictly below the transfer
amount the whole operation fails — the state (both balances and the
transaction log) is unchanged and an insufficient-funds failure is surfaced
through the error notification; when the source balance is sufficient and
the source and destination accounts are distinct, the source is
decremented, the destination incremented, and exactly one TRANSFER-kind
transaction tagged to the source account is written. -/
theorem c4_transfer_amended (s : State) (fromId toId : String) (amt : ℚ)
    (tid : String) (f t : Account)
    (hf : findAccount s fromId = some f) (ht : findAccount s toId = some t) :
    (f.balance < amt →
      (transferFunds s fromId toId amt tid).state = s ∧
      (transferFunds s fromId toId amt tid).notif
        = some ⟨"ERROR", "Transfer Failed", "Insufficient funds"⟩) ∧
    (¬ f.balance < amt → fromId ≠ toId → (∀ x ∈ s.transactions, x.id ≠ tid) →
      balanceOf (transferFunds s fromId toId amt tid).state fromId = f.balance - amt ∧
      balanceOf (transferFunds s fromId toId amt tid).state toId = t.balance + amt ∧
      (transferFunds s fromId toId amt tid).state.transactions
        = s.transactions ++
            [{ id := tid, description := "Transfer to " ++ t.name, amount := amt,
               type := "TRANSFER", accountId := fromId, category := "Transfer",
               status := "COMPLETED", bookingId := none, ownerId := s.owner }]) := by
  constructor
  · intro hlt
    constructor <;> simp [transferFunds, transferFundsTxn, hf, ht, hlt]
  · intro hge hne hfresh
    have hok := transferFunds_ok s fromId toId amt tid f t hf ht hge
    rw [hok]
    have hfl : (s.accounts.find? fun x => x.id == fromId) = some f := by
      simpa [findAccount] using hf
    have htl : (s.accounts.find? fun x => x.id == toId) = some t := by
      simpa [findAccount] using ht
    have htid : t.id = toId := by simpa using List.find?_some htl
    refine ⟨?_, ?_, ?_⟩
    · simp only [balanceOf]
      rw [balanceOfL_update_other _ _ _ _ hne]
      exact balanceOfL_update_self _ _ _ f hfl
    · simp only [balanceOf]
      refine balanceOfL_update_self _ _ _ t ?_
      rw [find_updateAccountBalance, htl]
      simp [htid, Ne.symm hne]
    · exact setTxnDoc_of_fresh _ _ (by simpa using hfresh)

/-- Witness for `c4_transfer_amended`: from the base state (account "A" at
100, "B" at 0), a transfer of 500 fails without touching the state, and a
transfer of 40 moves the balances to 60 and 40 with one TRANSFER record. -/
theorem c4_transfer_amended_witness :
    ((transferFunds baseState "A" "B" 500 "t1").state = baseState ∧
      (transferFunds baseState "A" "B" 500 "t1").notif
        = some ⟨"ERROR", "Transfer Failed", "Insufficient funds"⟩) ∧
    (balanceOf (transferFunds baseState "A" "B" 40 "t1").state "A"
        = accA.balance - 40 ∧
      balanceOf (transferFunds baseState "A" "B" 40 "t1").state "B"
        = accB.balance + 40 ∧
      (transferFunds baseState "A" "B" 40 "t1").state.transactions
        = baseState.transactions ++
            [{ id := "t1", description := "Transfer to " ++ accB.name, amount := 40,
               type := "TRANSFER", accountId := "A", category := "Transfer",
               status := "COMPLETED", bookingId := none, ownerId := baseState.owner }]) :=
  ⟨(c4_transfer_amended baseState "A" "B" 500 "t1" accA accB rfl rfl).1
      (by rw [show accA.balance = 100 from rfl]; norm_num),
    (c4_transfer_amended baseState "A" "B" 40 "t1" accA accB rfl rfl).2
      (by rw [show accA.balance = 100 from rfl]; norm_num)
      (by decide) (by simp [baseState])⟩

/-- C9: recording an expense against an existing account writes exactly one
EXPENSE transaction and decrements the account balance by the amount, with
no balance-floor check (the write commits even when the result is
negative); when the account is missing at commit time the whole operation
aborts with no transaction written and no balance changed. -/
theorem c9_expense_commits_no_floor (s : State) (d : ExpenseData) (tid : String)
    (a : Account) (ha : findAccount s d.accountId = some a)
    (hfresh : ∀ x ∈ s.transactions, x.id ≠ tid) :
    balanceOf (addTransaction s d tid).state d.accountId = a.balance - d.amount ∧
    (addTransaction s d tid).state.transactions
      = s.transactions ++
          [{ id := tid, description := d.description, amount := d.amount,
             type := "EXPENSE", accountId := d.accountId, category := d.category,
             status := "COMPLETED", bookingId := d.bookingId, ownerId := s.owner }] ∧
    (addTransaction s d tid).notif = some ⟨"SUCCESS", "Expense Recorded", "processed."⟩ ∧
    (∀ s2 : State, findAccount s2 d.accountId = none →
      addTransaction s2 d tid
        = ⟨s2, none, some ⟨"ERROR", "Error", "Failed to record expense."⟩⟩) := by
  have hok := addTransaction_ok s d tid a ha
  refine ⟨?_, ?_, by rw [hok], ?_⟩
  · rw [hok]
    simp only [balanceOf]
    exact balanceOfL_update_self _ _ _ _ (by simpa [findAccount] using ha)
  · rw [hok]
    exact setTxnDoc_of_fresh _ _ (by simpa using hfresh)
  · intro s2 ha2
    simp [addTransaction, addTransactionTxn, ha2]

/-- Witness for `c9_expense_commits_no_floor`: an expense of 150 against
account "A" (balance 100) commits and drives the balance to −50. -/
theorem c9_expense_commits_no_floor_witness :
    (balanceOf (addTransaction baseState ⟨"film", 150, "Gear", "A", none⟩ "t1").state "A"
        = accA.balance - 150 ∧
      (addTransaction baseState ⟨"film", 150, "Gear", "A", none⟩ "t1").state.transactions
        = baseState.transactions ++
            [{ id := "t1", description := "film", amount := 150, type := "EXPENSE",
               accountId := "A", category := "Gear", status := "COMPLETED",
               bookingId := none, ownerId := baseState.owner }] ∧
      (addTransaction baseState ⟨"film", 150, "Gear", "A", none⟩ "t1").notif
        = some ⟨"SUCCESS", "Expense Recorded", "processed."⟩ ∧
      (∀ s2 : State, findAccount s2 "A" = none →
        addTransaction s2 ⟨"film", 150, "Gear", "A", none⟩ "t1"
          = ⟨s2, none, some ⟨"ERROR", "Error", "Failed to record expense."⟩⟩)) ∧
    balanceOf (addTransaction baseState ⟨"film", 150, "Gear", "A", none⟩ "t1").state "A" < 0 := by
  have h := c9_expense_commits_no_floor baseState ⟨"film", 150, "Gear", "A", none⟩ "t1"
    accA rfl (by simp [baseState])
  refine ⟨h, ?_⟩
  rw [h.1, show accA.balance = 100 from rfl]
  norm_num

/-- C5 fails on the code as stated over the category string: the income
transaction written for a deposit booking carries the category
"Sales / Booking" (with spaces), so no transaction in category
"Sales/Booking" exists after the commit. -/
theorem c5_counterexample :
    ((addBooking baseState (candAt "15:00" 1) (some ⟨500000, "A"⟩) "t1").state.transactions.map (fun t => t.category) = ["Sales / Booking"]) ∧
    ¬ ∃ t ∈ (addBooking baseState (candAt "15:00" 1) (some ⟨500000, "A"⟩) "t1").state.transactions, t.category = "Sales/Booking" := by
  have hok := addBooking_deposit_ok baseState (candAt "15:00" 1) ⟨500000, "A"⟩ "t1" accA
    (roomConflict_base15_none _ 1) (by norm_num) rfl
  rw [hok]
  constructor
  · simp [setTxnDoc, baseState]
  · simp [setTxnDoc, baseState]

/-- C5 (amended): creating a booking with deposit D > 0 against an existing
account (and no room conflict) writes the booking with paidAmount = D,
writes exactly one INCOME transaction of amount D in category
"Sales / Booking" linked to the booking, and increases the target account's
balance by exactly D; with deposit zero the booking is written alone with
paidAmount = 0 and neither the transaction log nor any balance changes. -/
theorem c5_deposit_booking_amended (s : State) (nb : Booking) (p : PayDetails)
    (tid : String) (a : Account)
    (hnc : roomConflict s.owner s.config s.bookings
      (mkBookingWithAuth s nb (some p)) = none)
    (ha : findAccount s p.accountId = some a)
    (hfresh : ∀ x ∈ s.transactions, x.id ≠ tid) :
    (p.amount > 0 →
      findBooking (addBooking s nb (some p) tid).state nb.id
          = some (mkBookingWithAuth s nb (some p)) ∧
      (mkBookingWithAuth s nb (some p)).paidAmount = p.amount ∧
      (addBooking s nb (some p) tid).state.transactions
        = s.transactions ++
            [{ id := tid, description := "Deposit - " ++ nb.clientName,
               amount := p.amount, type := "INCOME", accountId := p.accountId,
               category := "Sales / Booking", status := "COMPLETED",
               bookingId := some nb.id, ownerId := s.owner }] ∧
      balanceOf (addBooking s nb (some p) tid).state p.accountId
          = a.balance + p.amount) ∧
    (p.amount = 0 →
      addBooking s nb (some p) tid
        = ⟨{ s with bookings := setBookingDoc s.bookings (mkBookingWithAuth s nb (some p)) },
            none, some ⟨"SUCCESS", "Booking Created", nb.clientName ++ " scheduled."⟩⟩ ∧
      (mkBookingWithAuth s nb (some p)).paidAmount = 0) := by
  constructor
  · intro hamt
    have hok := addBooking_deposit_ok s nb p tid a hnc hamt ha
    refine ⟨?_, rfl, ?_, ?_⟩
    · have hbk : (addBooking s nb (some p) tid).state.bookings
          = setBookingDoc s.bookings (mkBookingWithAuth s nb (some p)) := by rw [hok]
      show (addBooking s nb (some p) tid).state.bookings.find?
          (fun x => x.id == nb.id) = some (mkBookingWithAuth s nb (some p))
      rw [hbk]
      exact find_setBookingDoc_self s.bookings (mkBookingWithAuth s nb (some p))
    · have htx : (addBooking s nb (some p) tid).state.transactions
          = setTxnDoc s.transactions
              { id := tid,
                description := "Deposit - " ++ (mkBookingWithAuth s nb (some p)).clientName,
                amount := p.amount, type := "INCOME", accountId := p.accountId,
                category := "Sales / Booking", status := "COMPLETED",
                bookingId := some (mkBookingWithAuth s nb (some p)).id,
                ownerId := s.owner } := by rw [hok]
      rw [htx]
      exact setTxnDoc_of_fresh _ _ (by simpa using hfresh)
    · have hac : (addBooking s nb (some p) tid).state.accounts
          = updateAccountBalance s.accounts p.accountId (a.balance + p.amount) := by
        rw [hok]
      show balanceOfL (addBooking s nb (some p) tid).state.accounts p.accountId
          = a.balance + p.amount
      rw [hac]
      exact balanceOfL_update_self _ _ _ a (by simpa [findAccount] using ha)
  · intro hz
    refine ⟨?_, hz⟩
    refine addBooking_nopay_ok s nb (some p) tid hnc ?_
    intro q hq
    obtain rfl : p = q := Option.some.inj hq
    rw [hz]
    norm_num

/-- Witness for `c5_deposit_booking_amended`: a deposit of 500000 into
account "A" for a conflict-free candidate at 15:00, and the same candidate
with a zero deposit. -/
theorem c5_deposit_booking_amended_witness :
    (findBooking (addBooking baseState (candAt "15:00" 1) (some ⟨500000, "A"⟩) "t1").state (candAt "15:00" 1).id
        = some (mkBookingWithAuth baseState (candAt "15:00" 1) (some ⟨500000, "A"⟩)) ∧
      (mkBookingWithAuth baseState (candAt "15:00" 1) (some ⟨500000, "A"⟩)).paidAmount
        = (500000 : ℚ) ∧
      (addBooking baseState (candAt "15:00" 1) (some ⟨500000, "A"⟩) "t1").state.transactions
        = baseState.transactions ++
            [{ id := "t1",
               description := "Deposit - " ++ (candAt "15:00" 1).clientName,
               amount := (500000 : ℚ), type := "INCOME", accountId := "A",
               category := "Sales / Booking", status := "COMPLETED",
               bookingId := some (candAt "15:00" 1).id, ownerId := baseState.owner }] ∧
      balanceOf (addBooking baseState (candAt "15:00" 1) (some ⟨500000, "A"⟩) "t1").state "A"
        = accA.balance + 500000) ∧
    (addBooking baseState (candAt "15:00" 1) (some ⟨0, "A"⟩) "t1"
        = ⟨{ baseState with bookings := setBookingDoc baseState.bookings (mkBookingWithAuth baseState (candAt "15:00" 1) (some ⟨0, "A"⟩)) },
            none, some ⟨"SUCCESS", "Booking Created", (candAt "15:00" 1).clientName ++ " scheduled."⟩⟩ ∧
      (mkBookingWithAuth baseState (candAt "15:00" 1) (some ⟨0, "A"⟩)).paidAmount = 0) :=
  ⟨(c5_deposit_booking_amended baseState (candAt "15:00" 1) ⟨500000, "A"⟩ "t1" accA
      (roomConflict_base15_none _ 1) rfl (by simp [baseState])).1 (by norm_num),
    (c5_deposit_booking_amended baseState (candAt "15:00" 1) ⟨0, "A"⟩ "t1" accA
      (roomConflict_base15_none _ 1) rfl (by simp [baseState])).2 rfl⟩


/-- C3: settling (or refunding) a booking against an existing account adds
the signed amount to the booking's paidAmount and to the account balance,
and writes exactly one transaction whose amount is the absolute value,
whose kind is INCOME when the amount is positive and EXPENSE otherwise,
and whose description distinguishes "Payment - …" from "Refund - …"; the
reads and writes happen in one atomic operation, so two settlements
serialised on the same booking (the semantics the atomic primitive gives
two concurrent settlements) leave exactly two new transaction records and
a paidAmount equal to the sum of both amounts — no lost update. -/
theorem c3_settle_atomic_no_lost_update (s : State) (bid : String) (a1 a2 : ℚ)
    (aid tid1 tid2 : String) (bd : Booking) (ad : Account)
    (hb : findBooking s bid = some bd) (ha : findAccount s aid = some ad)
    (h1 : ∀ x ∈ s.transactions, x.id ≠ tid1)
    (h2 : ∀ x ∈ s.transactions, x.id ≠ tid2)
    (h12 : tid1 ≠ tid2) :
    (settleBooking s bid a1 aid tid1).thrown = none ∧
    findBooking (settleBooking s bid a1 aid tid1).state bid
      = some { bd with paidAmount := bd.paidAmount + a1 } ∧
    balanceOf (settleBooking s bid a1 aid tid1).state aid = ad.balance + a1 ∧
    (settleBooking s bid a1 aid tid1).state.transactions
      = s.transactions ++
          [{ id := tid1,
             description := (if a1 > 0 then "Payment - " else "Refund - ") ++ bd.clientName,
             amount := |a1|, type := if a1 > 0 then "INCOME" else "EXPENSE",
             accountId := aid, category := "Sales / Booking", status := "COMPLETED",
             bookingId := some bid, ownerId := s.owner }] ∧
    findBooking (settleBooking (settleBooking s bid a1 aid tid1).state bid a2 aid tid2).state bid
      = some { bd with paidAmount := bd.paidAmount + a1 + a2 } ∧
    balanceOf (settleBooking (settleBooking s bid a1 aid tid1).state bid a2 aid tid2).state aid
      = ad.balance + a1 + a2 ∧
    (settleBooking (settleBooking s bid a1 aid tid1).state bid a2 aid tid2).state.transactions
      = s.transactions ++
          [{ id := tid1,
             description := (if a1 > 0 then "Payment - " else "Refund - ") ++ bd.clientName,
             amount := |a1|, type := if a1 > 0 then "INCOME" else "EXPENSE",
             accountId := aid, category := "Sales / Booking", status := "COMPLETED",
             bookingId := some bid, ownerId := s.owner },
           { id := tid2,
             description := (if a2 > 0 then "Payment - " else "Refund - ") ++ bd.clientName,
             amount := |a2|, type := if a2 > 0 then "INCOME" else "EXPENSE",
             accountId := aid, category := "Sales / Booking", status := "COMPLETED",
             bookingId := some bid, ownerId := s.owner }] := by
  have hbl : s.bookings.find? (fun x => x.id == bid) = some bd := by
    simpa [findBooking] using hb
  have hal : s.accounts.find? (fun x => x.id == aid) = some ad := by
    simpa [findAccount] using ha
  have hok1 := settleBooking_ok s bid a1 aid tid1 bd ad hb ha
  have hbk1 : (settleBooking s bid a1 aid tid1).state.bookings
      = updateBookingPaid s.bookings bid (bd.paidAmount + a1) := by rw [hok1]
  have hac1 : (settleBooking s bid a1 aid tid1).state.accounts
      = updateAccountBalance s.accounts aid (ad.balance + a1) := by rw [hok1]
  have htx1 : (settleBooking s bid a1 aid tid1).state.transactions
      = setTxnDoc s.transactions
          { id := tid1,
            description := (if a1 > 0 then "Payment - " else "Refund - ") ++ bd.clientName,
            amount := |a1|, type := if a1 > 0 then "INCOME" else "EXPENSE",
            accountId := aid, category := "Sales / Booking", status := "COMPLETED",
            bookingId := some bid, ownerId := s.owner } := by rw [hok1]
  have howner1 : (settleBooking s bid a1 aid tid1).state.owner = s.owner := by rw [hok1]
  have htx1' : (settleBooking s bid a1 aid tid1).state.transactions
      = s.transactions ++
          [{ id := tid1,
             description := (if a1 > 0 then "Payment - " else "Refund - ") ++ bd.clientName,
             amount := |a1|, type := if a1 > 0 then "INCOME" else "EXPENSE",
             accountId := aid, category := "Sales / Booking", status := "COMPLETED",
             bookingId := some bid, ownerId := s.owner }] := by
    rw [htx1]
    exact setTxnDoc_of_fresh _ _ (by simpa using h1)
  have hfb1 : findBooking (settleBooking s bid a1 aid tid1).state bid
      = some { bd with paidAmount := bd.paidAmount + a1 } := by
    show (settleBooking s bid a1 aid tid1).state.bookings.find?
        (fun x => x.id == bid) = _
    rw [hbk1]
    exact find_updateBookingPaid_self _ _ _ bd hbl
  have hfa1 : findAccount (settleBooking s bid a1 aid tid1).state aid
      = some { ad with balance := ad.balance + a1 } := by
    show (settleBooking s bid a1 aid tid1).state.accounts.find?
        (fun x => x.id == aid) = _
    rw [hac1]
    exact find_updateAccountBalance_self _ _ _ ad hal
  have hbal1 : balanceOf (settleBooking s bid a1 aid tid1).state aid = ad.balance + a1 := by
    show balanceOfL (settleBooking s bid a1 aid tid1).state.accounts aid = _
    rw [hac1]
    exact balanceOfL_update_self _ _ _ ad hal
  have h2' : ∀ x ∈ (settleBooking s bid a1 aid tid1).state.transactions, x.id ≠ tid2 := by
    rw [htx1']
    intro x hx
    rcases List.mem_append.mp hx with hx | hx
    · exact h2 x hx
    · simp only [List.mem_singleton] at hx
      subst hx
      simpa using h12
  have hok2 := settleBooking_ok (settleBooking s bid a1 aid tid1).state bid a2 aid tid2
    { bd with paidAmount := bd.paidAmount + a1 } { ad with balance := ad.balance + a1 }
    hfb1 hfa1
  have hbk2 : (settleBooking (settleBooking s bid a1 aid tid1).state bid a2 aid tid2).state.bookings
      = updateBookingPaid (settleBooking s bid a1 aid tid1).state.bookings bid
          (bd.paidAmount + a1 + a2) := by rw [hok2]
  have hac2 : (settleBooking (settleBooking s bid a1 aid tid1).state bid a2 aid tid2).state.accounts
      = updateAccountBalance (settleBooking s bid a1 aid tid1).state.accounts aid
          (ad.balance + a1 + a2) := by rw [hok2]
  have htx2 : (settleBooking (settleBooking s bid a1 aid tid1).state bid a2 aid tid2).state.transactions
      = setTxnDoc (settleBooking s bid a1 aid tid1).state.transactions
          { id := tid2,
            description := (if a2 > 0 then "Payment - " else "Refund - ") ++ bd.clientName,
            amount := |a2|, type := if a2 > 0 then "INCOME" else "EXPENSE",
            accountId := aid, category := "Sales / Booking", status := "COMPLETED",
            bookingId := some bid, ownerId := (settleBooking s bid a1 aid tid1).state.owner } := by
    rw [hok2]
  refine ⟨by rw [hok1], hfb1, hbal1, htx1', ?_, ?_, ?_⟩
  · show (settleBooking (settleBooking s bid a1 aid tid1).state bid a2 aid tid2).state.bookings.find?
        (fun x => x.id == bid) = _
    rw [hbk2, hbk1]
    have hbl1 : (updateBookingPaid s.bookings bid (bd.paidAmount + a1)).find?
        (fun x => x.id == bid) = some { bd with paidAmount := bd.paidAmount + a1 } :=
      find_updateBookingPaid_self _ _ _ bd hbl
    exact find_updateBookingPaid_self _ _ _
      { bd with paidAmount := bd.paidAmount + a1 } hbl1
  · show balanceOfL (settleBooking (settleBooking s bid a1 aid tid1).state bid a2 aid tid2).state.accounts aid = _
    rw [hac2, hac1]
    have hal1 : (updateAccountBalance s.accounts aid (ad.balance + a1)).find?
        (fun x => x.id == aid) = some { ad with balance := ad.balance + a1 } :=
      find_updateAccountBalance_self _ _ _ ad hal
    exact balanceOfL_update_self _ _ _ _ hal1
  · rw [htx2, setTxnDoc_of_fresh _ _ (by simpa using h2'), htx1', howner1,
      List.append_assoc]
    rfl

/-- Witness for `c3_settle_atomic_no_lost_update`: two settlements of 30
and 20 on the base state's booking against account "A". -/
theorem c3_settle_atomic_no_lost_update_witness :
    (settleBooking baseState "bA" 30 "A" "t1").thrown = none ∧
    findBooking (settleBooking baseState "bA" 30 "A" "t1").state "bA"
      = some { bkMain with paidAmount := bkMain.paidAmount + 30 } ∧
    balanceOf (settleBooking baseState "bA" 30 "A" "t1").state "A" = accA.balance + 30 ∧
    (settleBooking baseState "bA" 30 "A" "t1").state.transactions
      = baseState.transactions ++
          [{ id := "t1",
             description := (if (30 : ℚ) > 0 then "Payment - " else "Refund - ") ++ bkMain.clientName,
             amount := |(30 : ℚ)|, type := if (30 : ℚ) > 0 then "INCOME" else "EXPENSE",
             accountId := "A", category := "Sales / Booking", status := "COMPLETED",
             bookingId := some "bA", ownerId := baseState.owner }] ∧
    findBooking (settleBooking (settleBooking baseState "bA" 30 "A" "t1").state "bA" 20 "A" "t2").state "bA"
      = some { bkMain with paidAmount := bkMain.paidAmount + 30 + 20 } ∧
    balanceOf (settleBooking (settleBooking baseState "bA" 30 "A" "t1").state "bA" 20 "A" "t2").state "A"
      = accA.balance + 30 + 20 ∧
    (settleBooking (settleBooking baseState "bA" 30 "A" "t1").state "bA" 20 "A" "t2").state.transactions
      = baseState.transactions ++
          [{ id := "t1",
             description := (if (30 : ℚ) > 0 then "Payment - " else "Refund - ") ++ bkMain.clientName,
             amount := |(30 : ℚ)|, type := if (30 : ℚ) > 0 then "INCOME" else "EXPENSE",
             accountId := "A", category := "Sales / Booking", status := "COMPLETED",
             bookingId := some "bA", ownerId := baseState.owner },
           { id := "t2",
             description := (if (20 : ℚ) > 0 then "Payment - " else "Refund - ") ++ bkMain.clientName,
             amount := |(20 : ℚ)|, type := if (20 : ℚ) > 0 then "INCOME" else "EXPENSE",
             accountId := "A", category := "Sales / Booking", status := "COMPLETED",
             bookingId := some "bA", ownerId := baseState.owner }] :=
  c3_settle_atomic_no_lost_update baseState "bA" 30 20 "A" "t1" "t2" bkMain accA
    rfl rfl (by simp [baseState]) (by simp [baseState]) (by decide)


/-- When the authoritative check finds a conflict, `addBooking` performs no
write and rethrows the error carrying the conflicting client's name. -/
theorem addBooking_conflict_abort (s : State) (nb : Booking) (pd : Option PayDetails)
    (tid : String) (c : Booking)
    (hc : roomConflict s.owner s.config s.bookings (mkBookingWithAuth s nb pd) = some c) :
    addBooking s nb pd tid
      = ⟨s, some ("Conflict detected! Room occupied by " ++ c.clientName ++ "."), none⟩ := by
  simp [addBooking, checkConflictOnServer, hc]

/-- C7 fails on the code as stated: a failed settlement (booking missing at
commit time) leaves the state unchanged but throws nothing to the caller —
the error is caught inside `settleBooking` and converted into an ERROR
notification, so the caller has nothing to catch. -/
theorem c7_counterexample :
    (settleBooking baseState "nope" 30 "A" "t1").state = baseState ∧
    (settleBooking baseState "nope" 30 "A" "t1").notif
      = some ⟨"ERROR", "Transaction Failed", "Could not process payment. Please try again."⟩ ∧
    (settleBooking baseState "nope" 30 "A" "t1").thrown = none := by
  have hb : findBooking baseState "nope" = none := rfl
  refine ⟨?_, ?_, ?_⟩ <;> simp [settleBooking, settleBookingTxn, hb]

/-- C7 (amended): every detected failure (booking conflict, referenced
account or booking missing at commit time, insufficient funds) aborts the
operation with no write — balances, paidAmount and the transaction log are
unchanged — and is surfaced distinctly: `addBooking` rethrows the error to
its caller (carrying the conflicting client's name in the conflict case),
while record-expense, settle and transfer catch the error internally and
surface a distinct ERROR notification instead of throwing. -/
theorem c7_failures_no_write_amended (s : State) :
    (∀ (nb : Booking) (pd : Option PayDetails) (tid : String) (c : Booking),
      roomConflict s.owner s.config s.bookings (mkBookingWithAuth s nb pd) = some c →
      addBooking s nb pd tid
        = ⟨s, some ("Conflict detected! Room occupied by " ++ c.clientName ++ "."), none⟩) ∧
    (∀ (nb : Booking) (p : PayDetails) (tid : String),
      roomConflict s.owner s.config s.bookings (mkBookingWithAuth s nb (some p)) = none →
      p.amount > 0 → findAccount s p.accountId = none →
      addBooking s nb (some p) tid = ⟨s, some "Account does not exist!", none⟩) ∧
    (∀ (d : ExpenseData) (tid : String), findAccount s d.accountId = none →
      addTransaction s d tid
        = ⟨s, none, some ⟨"ERROR", "Error", "Failed to record expense."⟩⟩) ∧
    (∀ (bid : String) (amt : ℚ) (aid tid : String),
      findBooking s bid = none ∨ findAccount s aid = none →
      settleBooking s bid amt aid tid
        = ⟨s, none, some ⟨"ERROR", "Transaction Failed",
            "Could not process payment. Please try again."⟩⟩) ∧
    (∀ (fromId toId : String) (amt : ℚ) (tid : String),
      findAccount s fromId = none ∨ findAccount s toId = none →
      transferFunds s fromId toId amt tid
        = ⟨s, none, some ⟨"ERROR", "Transfer Failed", "One or both accounts not found"⟩⟩) ∧
    (∀ (fromId toId : String) (amt : ℚ) (tid : String) (f t : Account),
      findAccount s fromId = some f → findAccount s toId = some t →
      f.balance < amt →
      transferFunds s fromId toId amt tid
        = ⟨s, none, some ⟨"ERROR", "Transfer Failed", "Insufficient funds"⟩⟩) := by
  refine ⟨?_, ?_, ?_, ?_, ?_, ?_⟩
  · intro nb pd tid c hc
    exact addBooking_conflict_abort s nb pd tid c hc
  · intro nb p tid hnc hamt hmiss
    simp [addBooking, checkConflictOnServer, hnc, hamt, addBookingTxn, hmiss]
  · intro d tid hmiss
    simp [addTransaction, addTransactionTxn, hmiss]
  · intro bid amt aid tid hmiss
    rcases hmiss with hmiss | hmiss
    · simp [settleBooking, settleBookingTxn, hmiss]
    · cases hbv : findBooking s bid <;>
        simp [settleBooking, settleBookingTxn, hbv, hmiss]
  · intro fromId toId amt tid hmiss
    rcases hmiss with hmiss | hmiss
    · cases htv : findAccount s toId <;>
        simp [transferFunds, transferFundsTxn, hmiss, htv]
    · cases hfv : findAccount s fromId <;>
        simp [transferFunds, transferFundsTxn, hfv, hmiss]
  · intro fromId toId amt tid f t hf ht hlt
    simp [transferFunds, transferFundsTxn, hf, ht, hlt]

/-- Witness for `c7_failures_no_write_amended`: from the base state, a
conflicting booking at 10:30 aborts with the conflicting client's name; an
expense against the missing account "Z", a settlement on the missing
booking "nope", and a transfer of 500 from account "A" (balance 100) each
leave the state unchanged and emit their distinct failure. -/
theorem c7_failures_no_write_amended_witness :
    addBooking baseState (candAt "10:30" 1) none "t9"
      = ⟨baseState, some ("Conflict detected! Room occupied by " ++ bkMain.clientName ++ "."), none⟩ ∧
    addTransaction baseState ⟨"film", 20, "Gear", "Z", none⟩ "t9"
      = ⟨baseState, none, some ⟨"ERROR", "Error", "Failed to record expense."⟩⟩ ∧
    settleBooking baseState "nope" 30 "A" "t9"
      = ⟨baseState, none, some ⟨"ERROR", "Transaction Failed",
          "Could not process payment. Please try again."⟩⟩ ∧
    transferFunds baseState "A" "B" 500 "t9"
      = ⟨baseState, none, some ⟨"ERROR", "Transfer Failed", "Insufficient funds"⟩⟩ :=
  ⟨(c7_failures_no_write_amended baseState).1 (candAt "10:30" 1) none "t9" bkMain
      (roomConflict_base1030_some none),
    (c7_failures_no_write_amended baseState).2.2.1 ⟨"film", 20, "Gear", "Z", none⟩ "t9" rfl,
    (c7_failures_no_write_amended baseState).2.2.2.1 "nope" 30 "A" "t9" (Or.inl rfl),
    (c7_failures_no_write_amended baseState).2.2.2.2.2 "A" "B" 500 "t9" accA accB rfl rfl
      (by rw [show accA.balance = 100 from rfl]; norm_num)⟩

/-- C6 fails on the code as stated: the submission path performs no
optimistic client-side conflict check, so the two phases are not logically
identical — on the same day's bookings, the client-side classification is
constantly `none` while the authoritative scan finds the 10:30 candidate
in conflict with the existing 10:00 booking. -/
theorem c6_counterexample :
    clientConflictCheck baseState.bookings (candAt "10:30" 1) = none ∧
    roomConflict baseState.owner baseState.config baseState.bookings
      (mkBookingWithAuth baseState (candAt "10:30" 1) none) = some bkMain :=
  ⟨rfl, roomConflict_base1030_some none⟩

/-- C6 (amended): exactly one conflict check runs per submission — the
authoritative one inside `addBooking` against freshly fetched data.  The
submission path's outcome is independent of the client-held bookings (the
modal performs no optimistic conflict check over them), and when the local
payment-form validation passes the submission is exactly `addBooking`,
whose authoritative check's failure is binding: a detected conflict
prevents the booking write and propagates with the conflicting client's
name. -/
theorem c6_single_authoritative_check (cb cb2 : List Booking) (s : State)
    (nb : Booking) (amt : ℚ) (aid tid : String) :
    submitBooking cb s nb amt aid tid = submitBooking cb2 s nb amt aid tid ∧
    (¬ (amt > 0 ∧ aid = "") →
      submitBooking cb s nb amt aid tid
        = addBooking s nb (if amt > 0 then some ⟨amt, aid⟩ else none) tid) ∧
    (∀ (pd : Option PayDetails) (c : Booking),
      roomConflict s.owner s.config s.bookings (mkBookingWithAuth s nb pd) = some c →
      addBooking s nb pd tid
        = ⟨s, some ("Conflict detected! Room occupied by " ++ c.clientName ++ "."), none⟩) := by
  refine ⟨rfl, ?_, ?_⟩
  · intro h
    have hcond : (decide (amt > 0) && (aid == "")) = false := by
      rw [Bool.and_eq_false_iff]
      by_cases hamt : amt > 0
      · right
        have : aid ≠ "" := fun he => h ⟨hamt, he⟩
        simpa using this
      · left
        simpa using hamt
    simp [submitBooking, hcond]
  · intro pd c hc
    exact addBooking_conflict_abort s nb pd tid c hc

/-- Witness for `c6_single_authoritative_check`: submitting the 15:00
candidate with no deposit gives the same result whether the client holds
the day's bookings or nothing, and equals `addBooking`; the 10:30 candidate
is rejected by the authoritative check with the conflicting client's name. -/
theorem c6_single_authoritative_check_witness :
    submitBooking [bkMain] baseState (candAt "15:00" 1) 0 "A" "t9"
      = submitBooking [] baseState (candAt "15:00" 1) 0 "A" "t9" ∧
    submitBooking [bkMain] baseState (candAt "15:00" 1) 0 "A" "t9"
      = addBooking baseState (candAt "15:00" 1)
          (if (0 : ℚ) > 0 then some ⟨0, "A"⟩ else none) "t9" ∧
    addBooking baseState (candAt "10:30" 1) none "t9"
      = ⟨baseState, some ("Conflict detected! Room occupied by " ++ bkMain.clientName ++ "."), none⟩ :=
  ⟨(c6_single_authoritative_check [bkMain] [] baseState (candAt "15:00" 1) 0 "A" "t9").1,
    (c6_single_authoritative_check [bkMain] [] baseState (candAt "15:00" 1) 0 "A" "t9").2.1
      (by norm_num),
    (c6_single_authoritative_check [] [] baseState (candAt "10:30" 1) 0 "A" "t9").2.2
      none bkMain (roomConflict_base1030_some none)⟩


/-- Witness for `c8_pairwise_amended` at a concrete pair: A at 10:00 for
2h and a candidate at 11:00 for 1h in the same room, buffer 30 — the
checker conflicts and both one-sided inequalities hold. -/
theorem c8_pairwise_amended_witness :
    ((roomConflict "ow" cfgB30 [bkMain] (candAt "11:00" 1)).isSome = true ↔
      (timeToMinsQ (candAt "11:00" 1).timeStart - timeToMinsQ bkMain.timeStart
          < bkMain.duration * 60 + cfgB30.bufferMinutes ∧
       timeToMinsQ bkMain.timeStart - timeToMinsQ (candAt "11:00" 1).timeStart
          < (candAt "11:00" 1).duration * 60 + cfgB30.bufferMinutes)) ∧
    (roomConflict "ow" cfgB30 [bkMain] (candAt "12:15" 1)).isSome = true ∧
    roomConflict "ow" cfgB30 [bkMain] (candAt "12:30" 1) = none :=
  c8_pairwise_amended "ow" cfgB30 bkMain (candAt "11:00" 1)
    rfl rfl (by decide) rfl (by decide)

end Lumina
